import Mathlib

/-!
Shallow embedding of `src/main.py` (LangChain-based product search agent demo):
the two search tool adapters (`search_products_v1` at lines 28-63 and the
commented-out `search_products_v3` at lines 71-111), the tool registry built in
`create_agent` (lines 114-173), and the interactive chat loop of `main`
(lines 176-247) with its history-truncation policy.

External effects are modelled explicitly: the HTTP transport is a function from
the request the adapter builds to a transport outcome (a status/body response,
or a raised fault), and the hosted LLM planner is an oracle event supplied to
each loop iteration.  Python exceptions are modelled by the `PyResult` type;
Python strings are Lean `String`s and `str.strip`/`str.lower` are embedded as
`pyStrip`/`pyLower`.
-/

/-- JSON values, as produced by `response.json()` and consumed by
`json.dumps(data, indent=2)`.  Numbers are modelled as integers (no claim
involves fractional numbers). -/
inductive Json where
  | null
  | bool (b : Bool)
  | num (n : Int)
  | str (s : String)
  | arr (elems : List Json)
  | obj (fields : List (String × Json))

/-- Lower-case hexadecimal digit, as used by Python `json` unicode escapes. -/
def hexDigit (n : Nat) : Char :=
  if n < 10 then Char.ofNat (48 + n) else Char.ofNat (87 + n)

/-- Four hex digits, as in a `\uXXXX` escape. -/
def hex4 (n : Nat) : String :=
  String.mk [hexDigit (n / 4096 % 16), hexDigit (n / 256 % 16),
             hexDigit (n / 16 % 16), hexDigit (n % 16)]

/-- A `\uXXXX` escape (surrogate pair above the basic plane), as emitted by
`json.dumps` with the default `ensure_ascii=True`. -/
def uEscape (n : Nat) : String :=
  if n < 0x10000 then "\\u" ++ hex4 n
  else "\\u" ++ hex4 (0xd800 + (n - 0x10000) / 1024)
       ++ "\\u" ++ hex4 (0xdc00 + (n - 0x10000) % 1024)

/-- Escaping of one character inside a JSON string literal
(`json.dumps` with `ensure_ascii=True`). -/
def escChar (c : Char) : String :=
  if c = '"' then "\\\""
  else if c = '\\' then "\\\\"
  else if c = '\n' then "\\n"
  else if c = '\t' then "\\t"
  else if c = '\r' then "\\r"
  else if c = '\x08' then "\\b"
  else if c = '\x0c' then "\\f"
  else if c.toNat < 0x20 || c.toNat > 0x7e then uEscape c.toNat
  else String.singleton c

/-- A JSON string literal with quotes and escapes. -/
def jsonQuote (s : String) : String :=
  "\"" ++ String.join (s.data.map escChar) ++ "\""

/-- `d` spaces of indentation. -/
def indentStr (d : Nat) : String := String.mk (List.replicate d ' ')

mutual

/-- `json.dumps(·, indent=2)` rendered at current indentation depth `d`. -/
def dumpJson (d : Nat) : Json → String
  | .null => "null"
  | .bool true => "true"
  | .bool false => "false"
  | .num n => toString n
  | .str s => jsonQuote s
  | .arr [] => "[]"
  | .arr (x :: xs) =>
      "[\n" ++ indentStr (d + 2) ++ dumpJson (d + 2) x
        ++ dumpArrRest (d + 2) xs ++ "\n" ++ indentStr d ++ "]"
  | .obj [] => "\x7b\x7d"
  | .obj ((k, v) :: kvs) =>
      "\x7b\n" ++ indentStr (d + 2) ++ jsonQuote k ++ ": " ++ dumpJson (d + 2) v
        ++ dumpObjRest (d + 2) kvs ++ "\n" ++ indentStr d ++ "\x7d"

/-- Remaining array items, each preceded by `,\n` and indentation. -/
def dumpArrRest (d : Nat) : List Json → String
  | [] => ""
  | x :: xs => ",\n" ++ indentStr d ++ dumpJson d x ++ dumpArrRest d xs

/-- Remaining object items, each preceded by `,\n` and indentation. -/
def dumpObjRest (d : Nat) : List (String × Json) → String
  | [] => ""
  | (k, v) :: kvs =>
      ",\n" ++ indentStr d ++ jsonQuote k ++ ": " ++ dumpJson d v
        ++ dumpObjRest d kvs

end

/-- `json.dumps(data, indent=2)` as called at lines 58 and 106 of `main.py`. -/
def json_dumps_indent2 (j : Json) : String := dumpJson 0 j

/-- What `response.json()` does on a given response: parse successfully, or
raise (malformed body). -/
inductive ResponseBody where
  | jsonVal (j : Json)
  | malformed (msg : String)

/-- Outcome of one `requests.post` call: an HTTP response with a status code,
or a raised transport fault (timeout, DNS failure, connection reset, ...). -/
inductive TransportOutcome where
  | response (status : Nat) (body : ResponseBody)
  | fault (msg : String)

/-- The outbound HTTP request an adapter builds: URL, `Content-Type` header,
JSON body, and timeout in seconds. -/
structure HttpRequest where
  url : String
  contentType : String
  body : List (String × Json)
  timeoutSecs : Nat

/-- Result of running a piece of Python code: a value, or a raised exception
carrying its message. -/
inductive PyResult (α : Type) where
  | ok (val : α)
  | exn (msg : String)
deriving DecidableEq

/-- The JSON payload built at lines 42-45 of `main.py`. -/
def v1_payload (query category : String) : List (String × Json) :=
  [("query", Json.str query), ("category", Json.str category)]

/-- The v1 request: fixed endpoint, JSON content type, payload, 10 s timeout
(lines 41-54). -/
def v1_request (query category : String) : HttpRequest :=
  { url := "https://product-search-mcp-api.replit.app/v1/products/search"
    contentType := "application/json"
    body := v1_payload query category
    timeoutSecs := 10 }

/-- The `try`-block body of `search_products_v1` (lines 40-60): post the
request, then branch on the status code; `response.json()` may raise. -/
def search_v1_try (query category : String)
    (http : HttpRequest → TransportOutcome) : PyResult String :=
  match http (v1_request query category) with
  | .fault m => .exn m
  | .response status body =>
      if status = 200 then
        match body with
        | .jsonVal data => .ok (json_dumps_indent2 data)
        | .malformed m => .exn m
      else
        .ok ("Error: API v1 returned status code " ++ toString status)

/-- `search_products_v1` (lines 28-63): the `try` body with the blanket
`except Exception` handler of lines 62-63 wrapped around it. -/
def search_products_v1 (query category : String)
    (http : HttpRequest → TransportOutcome) : PyResult String :=
  match search_v1_try query category http with
  | .ok s => .ok s
  | .exn m => .ok ("Error calling API v1: " ++ m)

/-- The JSON payload built at lines 86-93 of `main.py` (commented-out
`search_products_v3`): `query` and `category` always; `in_stock` appended only
when it was explicitly provided. -/
def v3_payload (query category : String) (in_stock : Option Bool) :
    List (String × Json) :=
  let payload := [("query", Json.str query), ("category", Json.str category)]
  match in_stock with
  | none => payload
  | some b => payload ++ [("in_stock", Json.bool b)]

/-- The v3 request (lines 85-102 of the commented-out definition). -/
def v3_request (query category : String) (in_stock : Option Bool) :
    HttpRequest :=
  { url := "https://product-search-mcp-api.replit.app/v3/products/search"
    contentType := "application/json"
    body := v3_payload query category in_stock
    timeoutSecs := 10 }

/-- The `try`-block body of `search_products_v3` (lines 84-108 of the
commented-out definition). -/
def search_v3_try (query category : String) (in_stock : Option Bool)
    (http : HttpRequest → TransportOutcome) : PyResult String :=
  match http (v3_request query category in_stock) with
  | .fault m => .exn m
  | .response status body =>
      if status = 200 then
        match body with
        | .jsonVal data => .ok (json_dumps_indent2 data)
        | .malformed m => .exn m
      else
        .ok ("Error: API v3 returned status code " ++ toString status)

/-- `search_products_v3` (lines 71-111 of `main.py`, present in the source only
as a commented-out definition): the `try` body with the blanket
`except Exception` handler of lines 110-111 wrapped around it. -/
def search_products_v3 (query category : String) (in_stock : Option Bool)
    (http : HttpRequest → TransportOutcome) : PyResult String :=
  match search_v3_try query category in_stock http with
  | .ok s => .ok s
  | .exn m => .ok ("Error calling API v3: " ++ m)

/-- The two names referenced by the `tools` list literal at lines 127-130 of
`main.py`. -/
inductive ToolName where
  | search_v1
  | search_v3
deriving DecidableEq

/-- Printed form of a tool name, as it appears in a Python `NameError`. -/
def toolNameStr : ToolName → String
  | .search_v1 => "search_products_v1"
  | .search_v3 => "search_products_v3"

/-- The module-level names actually defined when `main.py` is loaded: the
decorated `search_products_v1` (line 29) is defined; the whole definition of
`search_products_v3` (lines 71-111) is commented out, so that name is not. -/
def moduleDefinedTools : List ToolName := [ToolName.search_v1]

/-- The names the `tools` list literal mentions (lines 127-130): line 128
references `search_products_v1`, line 129 references `search_products_v3`. -/
def toolsListRefs : List ToolName := [ToolName.search_v1, ToolName.search_v3]

/-- Python name resolution for one element of the list literal: an undefined
name raises `NameError`. -/
def resolveToolName (n : ToolName) : PyResult ToolName :=
  if n ∈ moduleDefinedTools then .ok n
  else .exn ("NameError: name " ++ toolNameStr n ++ " is not defined")

/-- Left-to-right evaluation of the `tools` list literal; the first failing
name resolution aborts the whole expression. -/
def evalToolsList : List ToolName → PyResult (List ToolName)
  | [] => .ok []
  | n :: ns =>
      match resolveToolName n with
      | .exn e => .exn e
      | .ok t =>
          match evalToolsList ns with
          | .exn e => .exn e
          | .ok ts => .ok (t :: ts)

/-- `create_agent` (lines 114-173), abstracted to the part that can fail and
that the claims speak about: evaluating the static `tools` registry at
lines 127-130.  On success the agent executor exposes exactly this ordered
list of adapters. -/
def create_agent : PyResult (List ToolName) := evalToolsList toolsListRefs

/-- The characters Python `str.strip` (with no argument) removes: ASCII
whitespace plus the Unicode space characters recognised by `str.isspace`. -/
def pySpaceChars : List Char :=
  [' ', '\t', '\n', '\r', '\x0b', '\x0c', '\x1c', '\x1d', '\x1e', '\x1f',
   '\x85', '\xa0', '\u1680', '\u2000', '\u2001', '\u2002', '\u2003', '\u2004',
   '\u2005', '\u2006', '\u2007', '\u2008', '\u2009', '\u200a', '\u2028',
   '\u2029', '\u202f', '\u205f', '\u3000']

def pyIsSpace (c : Char) : Bool := pySpaceChars.contains c

/-- Python `str.strip()` as called at line 211: drop whitespace from both
ends. -/
def pyStrip (s : String) : String :=
  String.mk (((s.data.dropWhile pyIsSpace).reverse.dropWhile pyIsSpace).reverse)

/-- Case mapping of one character under Python `str.lower`, restricted to the
ASCII range (the exit keywords are ASCII). -/
def pyLowerChar (c : Char) : Char :=
  if 'A' ≤ c ∧ c ≤ 'Z' then Char.ofNat (c.toNat + 32) else c

/-- Python `str.lower()` as called at line 216. -/
def pyLower (s : String) : String := String.mk (s.data.map pyLowerChar)

/-- The exit-keyword list at line 216 of `main.py`. -/
def exitKeywords : List String := ["quit", "exit", "bye"]

/-- One stored conversation turn: a `(role, text)` pair
(lines 235-236 append `("human", user_input)` and `("ai", output)`). -/
abbrev Turn := String × String

/-- What one `agent_executor.invoke` call did: raised an exception, or
returned a response dict whose `"output"` entry may be missing
(`response.get("output", ...)`, line 231). -/
inductive PlannerOutcome where
  | raised (msg : String)
  | returned (output : Option String)

/-- One iteration's external stimulus: a line typed by the operator together
with what the planner would do if invoked, or a `KeyboardInterrupt`. -/
inductive TurnEvent where
  | line (raw : String) (planner : PlannerOutcome)
  | interrupt

/-- Result of one pass through the `while True` body: whether the planner was
invoked, whether the loop stopped (`break`), and the chat history afterwards. -/
structure StepOut where
  invokedPlanner : Bool
  stop : Bool
  history : List Turn
deriving DecidableEq

/-- The default used when the response dict has no `"output"` key (line 231). -/
def defaultOutput : String := "I encountered an error processing your request."

/-- Append the two new turns and apply the cap (lines 234-240): when the
history exceeds 20 entries keep only the last 20 (`chat_history[-20:]`). -/
def appendTurn (h : List Turn) (u a : String) : List Turn :=
  let h2 := h ++ [("human", u), ("ai", a)]
  if h2.length > 20 then h2.drop (h2.length - 20) else h2

/-- One iteration of the chat loop (lines 208-247): strip the input; ignore
empty input; break on a case-insensitive exit keyword; otherwise invoke the
planner, and on success append the two turns and truncate.  A raised planner
exception is caught by `except Exception` (line 245) and the loop continues
with the history unchanged; `KeyboardInterrupt` breaks the loop. -/
def stepLoop (chat_history : List Turn) (ev : TurnEvent) : StepOut :=
  match ev with
  | .interrupt => ⟨false, true, chat_history⟩
  | .line raw planner =>
      let user_input := pyStrip raw
      if user_input = "" then ⟨false, false, chat_history⟩
      else if pyLower user_input ∈ exitKeywords then ⟨false, true, chat_history⟩
      else
        match planner with
        | .raised _ => ⟨true, false, chat_history⟩
        | .returned out =>
            ⟨true, false, appendTurn chat_history user_input (out.getD defaultOutput)⟩

/-- The chat loop run over a finite stream of events, starting from a given
history; returns the history at the moment the loop ends (or the stream is
exhausted). -/
def runLoop (h : List Turn) : List TurnEvent → List Turn
  | [] => h
  | ev :: evs =>
      let r := stepLoop h ev
      if r.stop then r.history else runLoop r.history evs

/-- The last `n` elements of a list. -/
def takeLast (n : Nat) (l : List α) : List α := l.drop (l.length - n)

/-- The full chronological sequence of turns generated by a list of successful
exchanges (stripped input, planner output). -/
def flattenTurns : List (String × String) → List Turn
  | [] => []
  | t :: ts => ("human", pyStrip t.1) :: ("ai", t.2) :: flattenTurns ts

/-- The event of one successful exchange: the operator types `t.1` and the
planner returns output `t.2`. -/
def successEvent (t : String × String) : TurnEvent :=
  TurnEvent.line t.1 (PlannerOutcome.returned (some t.2))

/-- A concrete session of eleven successful exchanges (22 turns, so the cap
bites), used to exercise the history invariant. -/
def elevenExchanges : List (String × String) :=
  [("u1", "a1"), ("u2", "a2"), ("u3", "a3"), ("u4", "a4"), ("u5", "a5"),
   ("u6", "a6"), ("u7", "a7"), ("u8", "a8"), ("u9", "a9"), ("u10", "a10"),
   ("u11", "a11")]

/-! ### Helper lemmas about the embedded string primitives -/

lemma pyLower_data_eq (s kw : String) (h : pyLower s = kw) :
    s.data.map pyLowerChar = kw.data := by
  have := congrArg String.data h
  simpa [pyLower] using this

lemma pyLowerChar_of_space (c : Char) (hc : pyIsSpace c = true) :
    pyLowerChar c = c := by
  have hmem : c ∈ pySpaceChars := by
    simpa [pyIsSpace] using hc
  fin_cases hmem <;> decide

lemma no_space_of_keyword (s : String) (hkw : pyLower s ∈ exitKeywords) :
    ∀ c ∈ s.data, pyIsSpace c = false := by
  intro c hc
  by_contra hsp
  have hsp : pyIsSpace c = true := by simpa using hsp
  have hlc : pyLowerChar c = c := pyLowerChar_of_space c hsp
  have hmem : c ∈ pySpaceChars := by
    simpa [pyIsSpace] using hsp
  have hkw' : pyLower s = "quit" ∨ pyLower s = "exit" ∨ pyLower s = "bye" := by
    simpa [exitKeywords] using hkw
  rcases hkw' with h | h | h <;>
  · have hmap := pyLower_data_eq _ _ h
    have hin := List.mem_map_of_mem pyLowerChar hc
    rw [hmap] at hin
    rw [hlc] at hin
    fin_cases hmem <;> simp_all

lemma pyStrip_of_no_space (s : String) (h : ∀ c ∈ s.data, pyIsSpace c = false) :
    pyStrip s = s := by
  unfold pyStrip
  have h1 : s.data.dropWhile pyIsSpace = s.data := by
    cases hd : s.data with
    | nil => simp
    | cons a l =>
        rw [List.dropWhile_cons]
        have ha := h a (hd ▸ List.mem_cons_self a l)
        simp [ha]
  rw [h1]
  have h2 : s.data.reverse.dropWhile pyIsSpace = s.data.reverse := by
    cases hd : s.data.reverse with
    | nil => simp
    | cons a l =>
        rw [List.dropWhile_cons]
        have ha : a ∈ s.data := by
          rw [← List.mem_reverse, hd]; exact List.mem_cons_self a l
        have := h a ha
        simp [this]
  rw [h2, List.reverse_reverse]

lemma pyStrip_of_all_space (s : String) (h : ∀ c ∈ s.data, pyIsSpace c = true) :
    pyStrip s = "" := by
  unfold pyStrip
  have h1 : s.data.dropWhile pyIsSpace = [] := by
    rw [List.dropWhile_eq_nil_iff]
    intro x hx
    exact h x hx
  rw [h1]
  rfl

/-! ### Helper lemmas about the history window -/

lemma takeLast_length (n : Nat) (l : List α) :
    (takeLast n l).length = min l.length n := by
  simp [takeLast, List.length_drop]
  omega

lemma takeLast_of_length_le (n : Nat) (l : List α) (h : l.length ≤ n) :
    takeLast n l = l := by
  unfold takeLast
  have : l.length - n = 0 := by omega
  rw [this, List.drop_zero]

lemma takeLast_takeLast_append (n : Nat) (l m : List α) :
    takeLast n (takeLast n l ++ m) = takeLast n (l ++ m) := by
  rcases le_or_lt l.length n with h | h
  · rw [takeLast_of_length_le n l h]
  · unfold takeLast
    have hlen : (l.drop (l.length - n)).length = n := by
      rw [List.length_drop]; omega
    rw [List.drop_append_eq_append_drop, List.drop_append_eq_append_drop,
        List.drop_drop]
    congr 1
    · congr 1
      rw [List.length_append, List.length_append, hlen]
      omega
    · congr 1
      rw [List.length_append, List.length_append, hlen]
      omega

lemma appendTurn_eq_takeLast (h : List Turn) (u a : String) :
    appendTurn h u a = takeLast 20 (h ++ [("human", u), ("ai", a)]) := by
  show (if (h ++ [("human", u), ("ai", a)]).length > 20
      then (h ++ [("human", u), ("ai", a)]).drop
        ((h ++ [("human", u), ("ai", a)]).length - 20)
      else h ++ [("human", u), ("ai", a)]) =
    (h ++ [("human", u), ("ai", a)]).drop
      ((h ++ [("human", u), ("ai", a)]).length - 20)
  by_cases hgt : (h ++ [("human", u), ("ai", a)]).length > 20
  · rw [if_pos hgt]
  · rw [if_neg hgt]
    have h0 : (h ++ [("human", u), ("ai", a)]).length - 20 = 0 := by omega
    rw [h0, List.drop_zero]

lemma flattenTurns_length (ts : List (String × String)) :
    (flattenTurns ts).length = 2 * ts.length := by
  induction ts with
  | nil => simp [flattenTurns]
  | cons t ts ih => simp [flattenTurns, ih]; omega

lemma step_success (h : List Turn) (raw out : String)
    (h1 : pyStrip raw ≠ "") (h2 : pyLower (pyStrip raw) ∉ exitKeywords) :
    stepLoop h (.line raw (.returned (some out))) =
      ⟨true, false, appendTurn h (pyStrip raw) out⟩ := by
  simp [stepLoop, h1, h2, Option.getD]

lemma runLoop_success_general (turns : List (String × String)) :
    ∀ l : List Turn,
      (∀ t ∈ turns, pyStrip t.1 ≠ "" ∧ pyLower (pyStrip t.1) ∉ exitKeywords) →
      runLoop (takeLast 20 l) (turns.map successEvent) =
        takeLast 20 (l ++ flattenTurns turns) := by
  induction turns with
  | nil => intro l _; simp [runLoop, flattenTurns]
  | cons t ts ih =>
      intro l hall
      have ht := hall t (List.mem_cons_self t ts)
      have hts : ∀ x ∈ ts, pyStrip x.1 ≠ "" ∧ pyLower (pyStrip x.1) ∉ exitKeywords :=
        fun x hx => hall x (List.mem_cons_of_mem t hx)
      rw [List.map_cons]
      show runLoop (takeLast 20 l) (successEvent t :: ts.map successEvent) = _
      rw [runLoop]
      rw [show successEvent t = TurnEvent.line t.1 (.returned (some t.2)) from rfl]
      rw [step_success _ _ _ ht.1 ht.2]
      simp only [Bool.false_eq_true, if_false]
      rw [appendTurn_eq_takeLast, takeLast_takeLast_append]
      rw [ih (l ++ [("human", pyStrip t.1), ("ai", t.2)]) hts]
      rw [List.append_assoc]
      rfl

lemma mem_appendTurn {e : Turn} (h : List Turn) (u a : String)
    (he : e ∈ appendTurn h u a) : e ∈ h ++ [("human", u), ("ai", a)] := by
  rw [appendTurn_eq_takeLast] at he
  exact List.mem_of_mem_drop he

lemma step_preserves_roles (h : List Turn) (ev : TurnEvent)
    (hh : ∀ e ∈ h, e.1 = "human" ∨ e.1 = "ai") :
    ∀ e ∈ (stepLoop h ev).history, e.1 = "human" ∨ e.1 = "ai" := by
  cases ev with
  | interrupt => simpa [stepLoop] using hh
  | line raw planner =>
      by_cases h1 : pyStrip raw = ""
      · simpa [stepLoop, h1] using hh
      · by_cases h2 : pyLower (pyStrip raw) ∈ exitKeywords
        · simpa [stepLoop, h1, h2] using hh
        · cases planner with
          | raised m => simpa [stepLoop, h1, h2] using hh
          | returned out =>
              intro e he
              have he' : e ∈ appendTurn h (pyStrip raw) (out.getD defaultOutput) := by
                simpa [stepLoop, h1, h2] using he
              rcases List.mem_append.1 (mem_appendTurn h _ _ he') with hA | hB
              · exact hh e hA
              · rcases List.mem_cons.1 hB with rfl | hB'
                · left; rfl
                · rcases List.mem_cons.1 hB' with rfl | hB''
                  · right; rfl
                  · exact absurd hB'' (List.not_mem_nil e)

lemma runLoop_preserves_roles (evs : List TurnEvent) :
    ∀ h : List Turn, (∀ e ∈ h, e.1 = "human" ∨ e.1 = "ai") →
      ∀ e ∈ runLoop h evs, e.1 = "human" ∨ e.1 = "ai" := by
  induction evs with
  | nil => intro h hh; simpa [runLoop] using hh
  | cons ev evs ih =>
      intro h hh
      rw [runLoop]
      by_cases hs : (stepLoop h ev).stop
      · rw [if_pos hs]
        exact step_preserves_roles h ev hh
      · rw [if_neg hs]
        exact ih (stepLoop h ev).history (step_preserves_roles h ev hh)

/-! ### Claim theorems -/

/-- Claim C1 (code bug): the spec says the tool registry built inside
`create_agent` is a static ordered list of the v1 and v3 adapters and that
agent creation succeeds.  In the source as shipped, line 129 references
`search_products_v3` while its definition (lines 71-111) is commented out, so
evaluating the `tools` list raises `NameError` and `create_agent` never
returns an agent. -/
theorem create_agent_raises_NameError :
    create_agent =
      PyResult.exn "NameError: name search_products_v3 is not defined" ∧
    ∀ ts : List ToolName, create_agent ≠ PyResult.ok ts := by
  have h1 : create_agent =
      PyResult.exn "NameError: name search_products_v3 is not defined" := rfl
  refine ⟨h1, fun ts h => ?_⟩
  rw [h1] at h
  exact PyResult.noConfusion h

/-- Claim C2: the v3 request body contains no `in_stock` key when the filter
is unspecified, contains `in_stock` with exactly the given Boolean when it is
specified, and always contains `query` and `category`. -/
theorem v3_request_in_stock_semantics (q c : String) :
    List.lookup "in_stock" (v3_request q c none).body = none ∧
    (∀ v : Json, ("in_stock", v) ∉ (v3_request q c none).body) ∧
    (∀ b : Bool,
        List.lookup "in_stock" (v3_request q c (some b)).body =
          some (Json.bool b)) ∧
    (∀ st : Option Bool,
        List.lookup "query" (v3_request q c st).body = some (Json.str q) ∧
        List.lookup "category" (v3_request q c st).body = some (Json.str c)) := by
  refine ⟨rfl, ?_, fun b => rfl, fun st => ?_⟩
  · intro v hv
    simp [v3_request, v3_payload] at hv
  · cases st with
    | none => exact ⟨rfl, rfl⟩
    | some b => exact ⟨rfl, rfl⟩

/-- Claim C3: on any non-200 HTTP response, each adapter returns (not raises)
a string embedding the numeric status code. -/
theorem adapter_non200_embeds_status (q c : String) (status : Nat)
    (body : ResponseBody) (hs : status ≠ 200) :
    (∀ http : HttpRequest → TransportOutcome,
        http (v1_request q c) = TransportOutcome.response status body →
        search_products_v1 q c http =
          PyResult.ok ("Error: API v1 returned status code " ++ toString status)) ∧
    (∀ (st : Option Bool) (http : HttpRequest → TransportOutcome),
        http (v3_request q c st) = TransportOutcome.response status body →
        search_products_v3 q c st http =
          PyResult.ok ("Error: API v3 returned status code " ++ toString status)) := by
  constructor
  · intro http hh
    simp [search_products_v1, search_v1_try, hh, hs]
  · intro st http hh
    simp [search_products_v3, search_v3_try, hh, hs]

/-- Witness for C3 at status code 404. -/
theorem adapter_non200_embeds_status_witness :
    search_products_v1 "laptop" ""
        (fun _ => TransportOutcome.response 404 (ResponseBody.jsonVal Json.null)) =
      PyResult.ok ("Error: API v1 returned status code " ++ toString 404) ∧
    search_products_v3 "laptop" "" (some true)
        (fun _ => TransportOutcome.response 404 (ResponseBody.jsonVal Json.null)) =
      PyResult.ok ("Error: API v3 returned status code " ++ toString 404) :=
  ⟨(adapter_non200_embeds_status "laptop" "" 404 (ResponseBody.jsonVal Json.null)
      (by decide)).1 _ rfl,
   (adapter_non200_embeds_status "laptop" "" 404 (ResponseBody.jsonVal Json.null)
      (by decide)).2 (some true) _ rfl⟩

/-- Claim C4: for every input and every transport outcome (response of any
status, malformed body, or raised fault) each adapter returns an `ok` string
and never propagates an exception; a transport fault yields the descriptive
error string built by the `except` handler. -/
theorem adapter_never_raises (q c : String) :
    (∀ http : HttpRequest → TransportOutcome,
        ∃ s, search_products_v1 q c http = PyResult.ok s) ∧
    (∀ (m : String) (http : HttpRequest → TransportOutcome),
        http (v1_request q c) = TransportOutcome.fault m →
        search_products_v1 q c http =
          PyResult.ok ("Error calling API v1: " ++ m)) ∧
    (∀ (st : Option Bool) (http : HttpRequest → TransportOutcome),
        ∃ s, search_products_v3 q c st http = PyResult.ok s) ∧
    (∀ (st : Option Bool) (m : String) (http : HttpRequest → TransportOutcome),
        http (v3_request q c st) = TransportOutcome.fault m →
        search_products_v3 q c st http =
          PyResult.ok ("Error calling API v3: " ++ m)) := by
  refine ⟨?_, ?_, ?_, ?_⟩
  · intro http
    cases ht : http (v1_request q c) with
    | fault m =>
        exact ⟨"Error calling API v1: " ++ m,
          by simp [search_products_v1, search_v1_try, ht]⟩
    | response status body =>
        by_cases hst : status = 200
        · cases body with
          | jsonVal j =>
              exact ⟨json_dumps_indent2 j,
                by simp [search_products_v1, search_v1_try, ht, hst]⟩
          | malformed m =>
              exact ⟨"Error calling API v1: " ++ m,
                by simp [search_products_v1, search_v1_try, ht, hst]⟩
        · exact ⟨"Error: API v1 returned status code " ++ toString status,
            by simp [search_products_v1, search_v1_try, ht, hst]⟩
  · intro m http hh
    simp [search_products_v1, search_v1_try, hh]
  · intro st http
    cases ht : http (v3_request q c st) with
    | fault m =>
        exact ⟨"Error calling API v3: " ++ m,
          by simp [search_products_v3, search_v3_try, ht]⟩
    | response status body =>
        by_cases hst : status = 200
        · cases body with
          | jsonVal j =>
              exact ⟨json_dumps_indent2 j,
                by simp [search_products_v3, search_v3_try, ht, hst]⟩
          | malformed m =>
              exact ⟨"Error calling API v3: " ++ m,
                by simp [search_products_v3, search_v3_try, ht, hst]⟩
        · exact ⟨"Error: API v3 returned status code " ++ toString status,
            by simp [search_products_v3, search_v3_try, ht, hst]⟩
  · intro st m http hh
    simp [search_products_v3, search_v3_try, hh]

/-- Witness for C4: simulated timeout and connection reset. -/
theorem adapter_never_raises_witness :
    search_products_v1 "laptop" ""
        (fun _ => TransportOutcome.fault "timed out") =
      PyResult.ok ("Error calling API v1: " ++ "timed out") ∧
    search_products_v3 "laptop" "" none
        (fun _ => TransportOutcome.fault "connection reset") =
      PyResult.ok ("Error calling API v3: " ++ "connection reset") :=
  ⟨(adapter_never_raises "laptop" "").2.1 "timed out" _ rfl,
   (adapter_never_raises "laptop" "").2.2.2 none "connection reset" _ rfl⟩

/-- Claim C5: on an HTTP 200 response the v1 adapter returns the response body
re-serialized as indented JSON; for the body obtained from
`(results ↦ [])` the result is exactly the two-space-indented text. -/
theorem v1_200_returns_indented_json (q c : String) (j : Json) :
    (∀ http : HttpRequest → TransportOutcome,
        http (v1_request q c) = TransportOutcome.response 200 (ResponseBody.jsonVal j) →
        search_products_v1 q c http = PyResult.ok (json_dumps_indent2 j)) ∧
    search_products_v1 "laptops" ""
        (fun _ => TransportOutcome.response 200
          (ResponseBody.jsonVal (Json.obj [("results", Json.arr [])]))) =
      PyResult.ok "\x7b\n  \"results\": []\n\x7d" := by
  constructor
  · intro http hh
    simp [search_products_v1, search_v1_try, hh]
  · rfl

/-- Witness for C5: the mocked 200 response of the spec scenario. -/
theorem v1_200_returns_indented_json_witness :
    search_products_v1 "laptops" ""
        (fun _ => TransportOutcome.response 200
          (ResponseBody.jsonVal (Json.obj [("results", Json.arr [])]))) =
      PyResult.ok (json_dumps_indent2 (Json.obj [("results", Json.arr [])])) ∧
    json_dumps_indent2 (Json.obj [("results", Json.arr [])]) =
      "\x7b\n  \"results\": []\n\x7d" :=
  ⟨(v1_200_returns_indented_json "laptops" "" (Json.obj [("results", Json.arr [])])).1
      _ rfl,
   by decide⟩

/-- Claim C6: after any number `N` of completed successful turns the stored
history is exactly the last-20 window of the chronological turn sequence and
its length is `min (2 N) 20`. -/
theorem chat_history_window_invariant (turns : List (String × String))
    (hok : ∀ t ∈ turns, pyStrip t.1 ≠ "" ∧ pyLower (pyStrip t.1) ∉ exitKeywords) :
    runLoop [] (turns.map successEvent) = takeLast 20 (flattenTurns turns) ∧
    (runLoop [] (turns.map successEvent)).length = min (2 * turns.length) 20 := by
  have hmain := runLoop_success_general turns [] hok
  rw [show takeLast 20 ([] : List Turn) = [] from rfl] at hmain
  rw [List.nil_append] at hmain
  refine ⟨hmain, ?_⟩
  rw [hmain, takeLast_length, flattenTurns_length]

/-- Witness for C6: eleven successful exchanges, so the 22 generated turns are
truncated to the most recent 20. -/
theorem chat_history_window_invariant_witness :
    runLoop [] (elevenExchanges.map successEvent) =
      takeLast 20 (flattenTurns elevenExchanges) ∧
    (runLoop [] (elevenExchanges.map successEvent)).length =
      min (2 * elevenExchanges.length) 20 :=
  chat_history_window_invariant elevenExchanges (by decide)

/-- Claim C7: any input whose lower-casing is one of `quit`, `exit`, `bye`
breaks the loop without invoking the planner and without touching the
history. -/
theorem exit_keyword_breaks_loop (h : List Turn) (raw : String)
    (p : PlannerOutcome) (hkw : pyLower raw ∈ exitKeywords) :
    stepLoop h (.line raw p) = ⟨false, true, h⟩ := by
  have hns := no_space_of_keyword raw hkw
  have hs : pyStrip raw = raw := pyStrip_of_no_space raw hns
  have hne : raw ≠ "" := by
    rintro rfl
    exact absurd hkw (by decide)
  simp [stepLoop, hs, hne, hkw]

/-- Witness for C7: the three spec examples `QUIT`, `Exit`, `bye`. -/
theorem exit_keyword_breaks_loop_witness :
    stepLoop [("human", "x"), ("ai", "y")]
        (.line "QUIT" (.returned (some "z"))) =
      ⟨false, true, [("human", "x"), ("ai", "y")]⟩ ∧
    stepLoop [] (.line "Exit" (.raised "boom")) = ⟨false, true, []⟩ ∧
    stepLoop [] (.line "bye" (.returned none)) = ⟨false, true, []⟩ :=
  ⟨exit_keyword_breaks_loop _ "QUIT" _ (by decide),
   exit_keyword_breaks_loop _ "Exit" _ (by decide),
   exit_keyword_breaks_loop _ "bye" _ (by decide)⟩

/-- Claim C8: an empty input line neither invokes the planner nor changes the
history; the loop just continues. -/
theorem empty_input_skips_planner (h : List Turn) (p : PlannerOutcome) :
    stepLoop h (.line "" p) = ⟨false, false, h⟩ := by
  have hs : pyStrip "" = "" := rfl
  simp [stepLoop, hs]

/-- Counterexample for C9: after one successful turn the stored history
contains the role tag `ai`, which is neither `human` nor `assistant`, so the
claim that every stored role is `human` or `assistant` is false. -/
theorem history_role_ai_counterexample :
    runLoop [] [TurnEvent.line "hello" (PlannerOutcome.returned (some "hi there"))] =
      [("human", "hello"), ("ai", "hi there")] ∧
    ¬("ai" = "human" ∨ "ai" = "assistant") := by
  constructor
  · rfl
  · decide

/-- Claim C9 as amended: every entry ever stored in the chat history is a
`(role, text)` pair whose role is `human` or `ai` (the tag the code uses for
the assistant role); no other role value ever appears. -/
theorem history_roles_human_or_ai (evs : List TurnEvent) (h : List Turn)
    (hh : ∀ e ∈ h, e.1 = "human" ∨ e.1 = "ai") :
    ∀ e ∈ runLoop h evs, e.1 = "human" ∨ e.1 = "ai" :=
  runLoop_preserves_roles evs h hh

/-- Witness for the amended C9, at the stored assistant entry of a one-turn
session. -/
theorem history_roles_human_or_ai_witness :
    ("ai", "there") ∈
      runLoop [] [TurnEvent.line "hi" (PlannerOutcome.returned (some "there"))] ∧
    ((("ai", "there") : Turn).1 = "human" ∨ (("ai", "there") : Turn).1 = "ai") :=
  ⟨by decide,
   history_roles_human_or_ai
     [TurnEvent.line "hi" (PlannerOutcome.returned (some "there"))] []
     (fun e he => absurd he (List.not_mem_nil e)) ("ai", "there") (by decide)⟩

/-- Claim C10: the loop strips whitespace before any other check, so an
all-whitespace line acts like an empty one (no planner call, no history
change), and an exit keyword surrounded by whitespace still breaks the
loop. -/
theorem whitespace_stripped_before_checks (h : List Turn) (raw : String)
    (p : PlannerOutcome) :
    ((∀ c ∈ raw.data, pyIsSpace c = true) →
        stepLoop h (.line raw p) = ⟨false, false, h⟩) ∧
    (pyLower (pyStrip raw) ∈ exitKeywords →
        stepLoop h (.line raw p) = ⟨false, true, h⟩) := by
  constructor
  · intro hws
    have hs : pyStrip raw = "" := pyStrip_of_all_space raw hws
    simp [stepLoop, hs]
  · intro hkw
    have hne : pyStrip raw ≠ "" := by
      intro h0
      rw [h0] at hkw
      exact absurd hkw (by decide)
    simp [stepLoop, hne, hkw]

/-- Witness for C10: a tab-and-spaces line is ignored, and a padded `quit`
terminates. -/
theorem whitespace_stripped_before_checks_witness :
    stepLoop [("human", "x"), ("ai", "y")] (.line " \t " (.returned (some "o"))) =
      ⟨false, false, [("human", "x"), ("ai", "y")]⟩ ∧
    stepLoop [("human", "x"), ("ai", "y")] (.line "  quit  " (.returned (some "o"))) =
      ⟨false, true, [("human", "x"), ("ai", "y")]⟩ :=
  ⟨(whitespace_stripped_before_checks _ " \t " _).1 (by decide),
   (whitespace_stripped_before_checks _ "  quit  " _).2 (by decide)⟩
